import Mathlib

/-!
Shallow embedding of the lambo-proxy core (pkg/manager/manager.go and
pkg/config/config.go). Float64 arithmetic on scores and latencies is
modelled exactly over the rationals; the base-2 logarithm used by the
selection weight is modelled over the reals via Real.logb. Go int and
int64 counters are modelled by Nat and Int (no claim depends on machine
overflow).
-/

namespace Lambo

/-- Scheme, host and path of a parsed backend URL (the parts of Go
net/url.URL that the manager reads). -/
structure URLParts where
  scheme : String
  host : String
  path : String
deriving DecidableEq, Repr

/-- Endpoint mirrors manager.Endpoint: dynamic metrics of one backend.
The sync.Mutex field is dropped: the embedding is sequential, each
operation is one critical section. -/
structure Endpoint where
  address : String
  url : URLParts
  isHealthy : Bool
  score : ℚ
  latencyMs : ℚ
  consecutiveFails : ℕ
deriving DecidableEq, Repr

/-- NewEndpoint, after the URL has been parsed: a fresh endpoint is
healthy with score 0.5, latency 50.0 and zero consecutive failures
(manager.go lines 77-83). URL parsing itself is external string
plumbing and is taken as an input here. -/
def newEndpoint (addr : String) (u : URLParts) : Endpoint :=
  { address := addr
    url := u
    isHealthy := true
    score := 1/2
    latencyMs := 50
    consecutiveFails := 0 }

/-- UpdateScore (manager.go lines 90-117): overwrite the latency with
the just-observed duration in milliseconds, apply the EWMA update
score = alpha * P + (1 - alpha) * score with P = 1 on success and 0 on
failure, then clamp the result into the interval by the two-branch
conditional of the source. -/
def updateScore (ep : Endpoint) (success : Bool) (durationMs : ℤ) (ewmaAlpha : ℚ) : Endpoint :=
  let pi : ℚ := if success then 1 else 0
  let s : ℚ := ewmaAlpha * pi + (1 - ewmaAlpha) * ep.score
  let s : ℚ := if s < 1/100 then 1/100 else if s > 1 then 1 else s
  { ep with latencyMs := (durationMs : ℚ), score := s }

/-- Probe-outcome application, the endpoint-state part of
checkBackendHealth (manager.go lines 163-179). probeSuccess is false
when the request returned a transport error or a non-200 status. On
failure the consecutive-failure counter is incremented and, if it has
reached the threshold while the endpoint is still healthy, the endpoint
is marked unhealthy. On success the score is reset to 0.5 only if the
endpoint was unhealthy, then the endpoint is marked healthy and the
counter is zeroed. -/
def applyProbe (ep : Endpoint) (probeSuccess : Bool) (threshold : ℕ) : Endpoint :=
  if !probeSuccess then
    let ep1 := { ep with consecutiveFails := ep.consecutiveFails + 1 }
    if ep1.consecutiveFails ≥ threshold ∧ ep1.isHealthy then
      { ep1 with isHealthy := false }
    else
      ep1
  else
    let ep1 := if !ep.isHealthy then { ep with score := 1/2 } else ep
    { ep1 with isHealthy := true, consecutiveFails := 0 }

/-- Run a list of probe outcomes against an endpoint, oldest first. -/
def runProbes (ep : Endpoint) (outcomes : List Bool) (threshold : ℕ) : Endpoint :=
  outcomes.foldl (fun e s => applyProbe e s threshold) ep

/-- One operation touching a single endpoint record: either a request
outcome report (UpdateScore) or a health-probe outcome. -/
inductive Op where
  | record (success : Bool) (durationMs : ℤ) (ewmaAlpha : ℚ)
  | probe (success : Bool) (threshold : ℕ)
deriving DecidableEq, Repr

/-- Apply one operation to an endpoint. -/
def applyOp (ep : Endpoint) : Op → Endpoint
  | .record success d a => updateScore ep success d a
  | .probe success t => applyProbe ep success t

/-- Run a sequence of operations, oldest first. -/
def runOps (ep : Endpoint) (ops : List Op) : Endpoint :=
  ops.foldl applyOp ep

/-- The score interval maintained by the clamp. -/
def scoreInRange (ep : Endpoint) : Prop :=
  1/100 ≤ ep.score ∧ ep.score ≤ 1

instance (ep : Endpoint) : Decidable (scoreInRange ep) := by
  unfold scoreInRange; infer_instance

/-- Concrete URL parts used for concrete test endpoints. -/
def demoURL : URLParts :=
  { scheme := "http", host := "h", path := "" }

/-- A freshly constructed endpoint on a concrete address. -/
def demoEndpoint : Endpoint := newEndpoint "h" demoURL

/-- A concrete endpoint currently marked unhealthy, with a nonzero
failure streak and a depressed score. -/
def unhealthyDemo : Endpoint :=
  { demoEndpoint with isHealthy := false, consecutiveFails := 5, score := 3/100 }

/-- Health path construction of checkBackendHealth (manager.go lines
144-154): the path is "/health" unless the endpoint has a base path,
in which case "/health" (or "health" when the base path already ends in
a slash) is appended to it. -/
def buildHealthPath (basePath : String) : String :=
  if basePath ≠ "" ∧ basePath ≠ "/" then
    if basePath.back = '/' then basePath ++ "health"
    else basePath ++ "/health"
  else "/health"

/-- Full health-probe URL (manager.go line 157): scheme, host and the
constructed health path. -/
def healthURL (u : URLParts) : String :=
  u.scheme ++ "://" ++ u.host ++ buildHealthPath u.path

/-- Probe failure classification (manager.go line 163): a probe fails
exactly when the request returned a transport error or a status code
other than 200. -/
def probeFailed (transportError : Bool) (statusCode : ℕ) : Bool :=
  transportError || statusCode != 200

/-- Config mirrors config.Config. The health-check interval is a Go
time.Duration, an int64 count of nanoseconds, modelled by Int; the
proxy port and the failure threshold are Go ints, modelled by Int. -/
structure Config where
  proxyPort : ℤ
  healthCheckIntervalNs : ℤ
  healthCheckFailures : ℤ
  ewmaAlpha : ℚ
  backendAddresses : List String
deriving DecidableEq, Repr

/-- Config.setDefaults (config.go lines 96-116): zero-valued fields are
replaced by the documented defaults. NewConfig applies this to the zero
config before YAML and environment values are merged on top. -/
def Config.setDefaults (c : Config) : Config :=
  { proxyPort := if c.proxyPort = 0 then 8080 else c.proxyPort
    healthCheckIntervalNs :=
      if c.healthCheckIntervalNs = 0 then 5000000000 else c.healthCheckIntervalNs
    healthCheckFailures := if c.healthCheckFailures = 0 then 3 else c.healthCheckFailures
    ewmaAlpha := if c.ewmaAlpha = 0 then 1/10 else c.ewmaAlpha
    backendAddresses :=
      if c.backendAddresses.length = 0 then
        ["rpc-osmosis.ecostake.com:443",
         "osmosis-rpc.polkachu.com:443",
         "rpc.osmosis.validatus.com:443"]
      else c.backendAddresses }

/-- Config.Validate (config.go lines 119-136): the checks in source
order, returning the first violated one as an error. NewConfig returns
an error exactly when this does, so it is the construction gate on the
final merged configuration values. -/
def Config.validate (c : Config) : Except String Unit :=
  if c.proxyPort < 1 ∨ c.proxyPort > 65535 then
    Except.error "proxy_port must be between 1 and 65535"
  else if c.healthCheckIntervalNs ≤ 0 then
    Except.error "health_check_interval must be positive"
  else if c.healthCheckFailures < 1 then
    Except.error "health_check_failures must be at least 1"
  else if c.ewmaAlpha ≤ 0 ∨ c.ewmaAlpha > 1 then
    Except.error "ewma_alpha must be between 0 and 1"
  else if c.backendAddresses.length = 0 then
    Except.error "backend_addresses must contain at least one address"
  else
    Except.ok ()

/-- Latency clamp of Select (manager.go lines 217-219): latency is at
least 1 ms before entering the logarithm. -/
def clampLatency (l : ℚ) : ℚ :=
  if l < 1 then 1 else l

/-- Effective weight of one candidate (manager.go lines 221-227):
score times the latency multiplier 1 / log2(latency + 2), after the
latency clamp. -/
noncomputable def effWeight (ep : Endpoint) : ℝ :=
  (ep.score : ℝ) * (1 / Real.logb 2 ((clampLatency ep.latencyMs : ℝ) + 2))

/-- The accumulating walk of the weighted random selection (manager.go
lines 234-240): running weight starts at acc; the first candidate whose
cumulative weight reaches r is returned; an exhausted list yields none.
Generic in the ordered field so that the walk is executable over the
rationals while the deployed instance uses real-valued weights. -/
def wrcLoop {K : Type} [LinearOrderedField K] (wf : Endpoint → K) (r : K) :
    K → List Endpoint → Option Endpoint
  | _, [] => none
  | acc, e :: rest =>
    if r ≤ acc + wf e then some e else wrcLoop wf r (acc + wf e) rest

/-- Select (manager.go lines 188-243): filter the healthy endpoints,
return none when there are no candidates, otherwise draw r as the
uniform draw rUnit scaled by the total weight and walk the candidates;
if the walk exhausts the list the last candidate is the fallback. -/
def select {K : Type} [LinearOrderedField K] (wf : Endpoint → K)
    (pool : List Endpoint) (rUnit : K) : Option Endpoint :=
  let candidates := pool.filter (fun ep => ep.isHealthy)
  if candidates.isEmpty then none
  else
    let total := (candidates.map wf).sum
    match wrcLoop wf (rUnit * total) 0 candidates with
    | some e => some e
    | none => candidates.getLast?

/-- Select with the weight function of the source. -/
noncomputable def selectR (pool : List Endpoint) (rUnit : ℝ) : Option Endpoint :=
  select effWeight pool rUnit

/-- A second concrete healthy endpoint for pools with two candidates. -/
def demoEndpoint2 : Endpoint :=
  { newEndpoint "h2" demoURL with score := 9/10, latencyMs := 62 }

/-- A configuration whose proxy port is out of range while every other
field satisfies its documented constraint. -/
def badPortConfig : Config :=
  { proxyPort := 70000
    healthCheckIntervalNs := 5000000000
    healthCheckFailures := 3
    ewmaAlpha := 1/10
    backendAddresses := ["localhost:8081"] }

/-- Endpoint with zero recorded latency. -/
def lowLatDemo : Endpoint := { demoEndpoint with latencyMs := 0 }

/-- Endpoint with 62 ms recorded latency. -/
def highLatDemo : Endpoint := { demoEndpoint with latencyMs := 62 }

end Lambo

open Lambo

section ScoreInvariantLemmas

lemma updateScore_score_mem (ep : Endpoint) (success : Bool) (d : ℤ) (a : ℚ) :
    scoreInRange (updateScore ep success d a) := by
  unfold updateScore scoreInRange
  dsimp only
  split_ifs <;> constructor <;> linarith

lemma applyProbe_score_mem (ep : Endpoint) (success : Bool) (t : ℕ)
    (h : scoreInRange ep) : scoreInRange (applyProbe ep success t) := by
  unfold scoreInRange at h ⊢
  unfold applyProbe
  split_ifs <;> dsimp only <;> (try split_ifs) <;>
    first | exact h | (constructor <;> norm_num)

lemma applyOp_score_mem (ep : Endpoint) (op : Op)
    (h : scoreInRange ep) : scoreInRange (applyOp ep op) := by
  cases op with
  | record s d a => exact updateScore_score_mem ep s d a
  | probe s t => exact applyProbe_score_mem ep s t h

lemma runOps_score_mem (ep : Endpoint) (ops : List Op)
    (h : scoreInRange ep) : scoreInRange (runOps ep ops) := by
  induction ops generalizing ep with
  | nil => exact h
  | cons op rest ih => exact ih (applyOp ep op) (applyOp_score_mem ep op h)

end ScoreInvariantLemmas

/-- C1: starting from a freshly constructed endpoint (score 0.5), after
every sequence of UpdateScore calls and probe-outcome applications the
score lies within the interval from 0.01 to 1.0. Since the sequence is
arbitrary, this bounds the score after every intermediate operation of
any longer run as well. -/
theorem c1_score_always_in_range (addr : String) (u : URLParts) (ops : List Op) :
    1/100 ≤ (runOps (newEndpoint addr u) ops).score ∧
      (runOps (newEndpoint addr u) ops).score ≤ 1 := by
  have h0 : scoreInRange (newEndpoint addr u) := by
    constructor <;> norm_num [newEndpoint]
  exact runOps_score_mem _ ops h0

/-- C2: UpdateScore computes the new score as alpha * P + (1 - alpha) *
oldScore with P = 1 on success and 0 on failure, clamped into the
interval from 0.01 to 1.0 (stated via max and min); with alpha = 0.1 and
prior score 0.5, a single success yields exactly 0.55 and a single
failure yields exactly 0.45. -/
theorem c2_updateScore_ewma (ep : Endpoint) (success : Bool) (d : ℤ) (a : ℚ) :
    (updateScore ep success d a).score =
      max (1/100) (min 1 (a * (if success then 1 else 0) + (1 - a) * ep.score)) ∧
    (updateScore demoEndpoint true 10 (1/10)).score = 55/100 ∧
    (updateScore demoEndpoint false 10 (1/10)).score = 45/100 := by
  refine ⟨?_, by norm_num [updateScore, demoEndpoint, newEndpoint],
    by norm_num [updateScore, demoEndpoint, newEndpoint]⟩
  unfold updateScore
  dsimp only
  set p : ℚ := if success then 1 else 0 with hp
  split_ifs with h1 h2
  · rw [min_eq_right (by linarith), max_eq_left (by linarith)]
  · rw [min_eq_left (by linarith), max_eq_right (by norm_num)]
  · rw [min_eq_right (by linarith), max_eq_right (by linarith)]

/-- C3: with failureThreshold 3, a fresh endpoint becomes unhealthy
exactly on the 3rd consecutive failed probe and not earlier; an
interleaved successful probe resets the counter so two further failures
cause no transition; and a failed probe on an already-unhealthy endpoint
increments the counter but leaves the health state unchanged. -/
theorem c3_health_state_machine :
    (runProbes demoEndpoint [false] 3).isHealthy = true ∧
    (runProbes demoEndpoint [false, false] 3).isHealthy = true ∧
    (runProbes demoEndpoint [false, false, false] 3).isHealthy = false ∧
    (runProbes demoEndpoint [false, false, true] 3).consecutiveFails = 0 ∧
    (runProbes demoEndpoint [false, false, true, false, false] 3).isHealthy = true ∧
    (∀ ep : Endpoint, ep.isHealthy = false →
      (applyProbe ep false 3).isHealthy = false ∧
      (applyProbe ep false 3).consecutiveFails = ep.consecutiveFails + 1) := by
  refine ⟨by decide, by decide, by decide, by decide, by decide, ?_⟩
  intro ep h
  unfold applyProbe
  simp [h]

/-- C3 witness: the sticky-unhealthy clause applied to a concrete
unhealthy endpoint. -/
theorem c3_health_state_machine_witness :
    (applyProbe unhealthyDemo false 3).isHealthy = false ∧
    (applyProbe unhealthyDemo false 3).consecutiveFails =
      unhealthyDemo.consecutiveFails + 1 :=
  c3_health_state_machine.2.2.2.2.2 unhealthyDemo rfl

/-- C5: a successful probe on an unhealthy endpoint resets the score to
exactly 0.5; on an already-healthy endpoint the score is untouched; in
both cases the endpoint ends healthy with a zeroed failure counter. -/
theorem c5_recovery_score_reset (ep : Endpoint) (t : ℕ) :
    (applyProbe ep true t).score = (if ep.isHealthy then ep.score else 1/2) ∧
    (applyProbe ep true t).isHealthy = true ∧
    (applyProbe ep true t).consecutiveFails = 0 := by
  unfold applyProbe
  rcases hb : ep.isHealthy <;> simp [hb]

/-- C8: UpdateScore modifies only the latency and score fields: the
health flag, the consecutive-failure counter and the identity fields are
unchanged by every call. -/
theorem c8_updateScore_frame (ep : Endpoint) (success : Bool) (d : ℤ) (a : ℚ) :
    (updateScore ep success d a).isHealthy = ep.isHealthy ∧
    (updateScore ep success d a).consecutiveFails = ep.consecutiveFails ∧
    (updateScore ep success d a).address = ep.address ∧
    (updateScore ep success d a).url = ep.url :=
  ⟨rfl, rfl, rfl, rfl⟩

section SelectLemmas

variable {K : Type} [LinearOrderedField K]

lemma select_eq (wf : Endpoint → K) (pool : List Endpoint) (rUnit : K) :
    select wf pool rUnit =
      (if (pool.filter (fun ep => ep.isHealthy)).isEmpty then none
       else
         match
           wrcLoop wf (rUnit * ((pool.filter (fun ep => ep.isHealthy)).map wf).sum) 0
             (pool.filter (fun ep => ep.isHealthy)) with
         | some e => some e
         | none => (pool.filter (fun ep => ep.isHealthy)).getLast?) :=
  rfl

lemma wrcLoop_mem (wf : Endpoint → K) (r : K) :
    ∀ (l : List Endpoint) (acc : K) (e : Endpoint),
      wrcLoop wf r acc l = some e → e ∈ l := by
  intro l
  induction l with
  | nil => intro acc e h; simp [wrcLoop] at h
  | cons x rest ih =>
    intro acc e h
    unfold wrcLoop at h
    split_ifs at h with hc
    · cases h; exact List.mem_cons_self x rest
    · exact List.mem_cons_of_mem x (ih _ e h)

lemma select_mem (wf : Endpoint → K) (pool : List Endpoint) (r : K)
    (hne : pool.filter (fun ep => ep.isHealthy) ≠ []) :
    ∃ e, select wf pool r = some e ∧
      e ∈ pool.filter (fun ep => ep.isHealthy) := by
  rw [select_eq]
  rw [List.isEmpty_eq_false_iff_exists_mem.mpr
    (List.exists_mem_of_ne_nil _ hne), if_neg (by simp)]
  rcases hw : wrcLoop wf (r * ((pool.filter (fun ep => ep.isHealthy)).map wf).sum) 0
      (pool.filter (fun ep => ep.isHealthy)) with _ | e
  · refine ⟨(pool.filter (fun ep => ep.isHealthy)).getLast hne, ?_, List.getLast_mem hne⟩
    rw [List.getLast?_eq_getLast_of_ne_nil hne]
  · exact ⟨e, rfl, wrcLoop_mem wf _ _ _ e hw⟩

lemma select_eq_none_iff (wf : Endpoint → K) (pool : List Endpoint) (r : K) :
    select wf pool r = none ↔ pool.filter (fun ep => ep.isHealthy) = [] := by
  constructor
  · intro h
    by_contra hne
    rcases select_mem wf pool r hne with ⟨e, he, _⟩
    rw [h] at he
    exact Option.noConfusion he
  · intro h
    rw [select_eq, h]
    rfl

lemma select_singleton (wf : Endpoint → K) (pool : List Endpoint) (r : K)
    (e : Endpoint) (h : pool.filter (fun ep => ep.isHealthy) = [e]) :
    select wf pool r = some e := by
  rw [select_eq, h]
  simp only [List.isEmpty_cons, if_false, Bool.false_eq_true]
  unfold wrcLoop
  split_ifs <;> rfl

end SelectLemmas

section WeightLemmas

lemma logb_two_sixtyfour : Real.logb 2 64 = 6 := by
  have h : (64:ℝ) = 2 ^ (6:ℕ) := by norm_num
  rw [h, Real.logb_pow, Real.logb_self_eq_one (by norm_num)]
  norm_num

lemma one_lt_logb_two_three : 1 < Real.logb 2 3 := by
  have h2 : Real.logb 2 2 = 1 := Real.logb_self_eq_one (by norm_num)
  rw [← h2]
  exact Real.logb_lt_logb (by norm_num) (by norm_num) (by norm_num)

lemma effWeight_lowLatDemo :
    effWeight lowLatDemo = (1/2 : ℝ) * (1 / Real.logb 2 3) := by
  unfold effWeight lowLatDemo demoEndpoint newEndpoint clampLatency
  norm_num

lemma effWeight_highLatDemo :
    effWeight highLatDemo = (1/2 : ℝ) * (1 / Real.logb 2 64) := by
  unfold effWeight highLatDemo demoEndpoint newEndpoint clampLatency
  norm_num

end WeightLemmas

/-- C4: Select returns the none result exactly when no endpoint of the
pool is marked healthy; and when the healthy filter leaves exactly one
endpoint, Select returns that endpoint whatever its score, its latency
and the random draw. -/
theorem c4_select_none_iff_no_healthy (pool : List Endpoint) (r : ℝ) :
    (selectR pool r = none ↔ ∀ ep ∈ pool, ep.isHealthy = false) ∧
    ∀ e : Endpoint, pool.filter (fun ep => ep.isHealthy) = [e] →
      selectR pool r = some e := by
  constructor
  · rw [selectR, select_eq_none_iff, List.filter_eq_nil_iff]
    constructor
    · intro h ep hm
      simpa using h ep hm
    · intro h ep hm
      simp [h ep hm]
  · intro e he
    exact select_singleton effWeight pool r e he

/-- C4 witness: a pool with one healthy and one unhealthy endpoint
always selects the healthy one. -/
theorem c4_select_none_iff_no_healthy_witness :
    selectR [demoEndpoint, unhealthyDemo] (1/2) = some demoEndpoint :=
  (c4_select_none_iff_no_healthy [demoEndpoint, unhealthyDemo] (1/2)).2
    demoEndpoint rfl

/-- C10: whenever the healthy-candidate list is non-empty, Select
returns some healthy endpoint of the pool; the walk either crosses the
drawn value at some candidate or falls back to the last candidate, so
it never fails. -/
theorem c10_select_total_on_candidates (pool : List Endpoint) (r : ℝ)
    (hne : pool.filter (fun ep => ep.isHealthy) ≠ []) :
    ∃ e, selectR pool r = some e ∧ e ∈ pool ∧ e.isHealthy = true := by
  rcases select_mem effWeight pool r hne with ⟨e, he, hm⟩
  rw [List.mem_filter] at hm
  exact ⟨e, he, hm.1, hm.2⟩

/-- C10 witness: a pool of two healthy endpoints yields a healthy
member for the draw one half. -/
theorem c10_select_total_on_candidates_witness :
    ∃ e, selectR [demoEndpoint, demoEndpoint2] (1/2) = some e ∧
      e ∈ [demoEndpoint, demoEndpoint2] ∧ e.isHealthy = true :=
  c10_select_total_on_candidates [demoEndpoint, demoEndpoint2] (1/2)
    (List.cons_ne_nil demoEndpoint [demoEndpoint2])

/-- C6 counterexample: for the two concrete endpoints with equal score
0.5 and latencies 0 ms and 62 ms, the effective weight ratio is not
log2(62+2) / log2(0+2): the code clamps a latency below 1 ms up to
1 ms before the logarithm, so the low-latency multiplier uses log2(3),
not log2(2). -/
theorem c6_weight_ratio_counterexample :
    ¬ (effWeight lowLatDemo / effWeight highLatDemo =
        Real.logb 2 (62 + 2) / Real.logb 2 (0 + 2)) := by
  intro h
  rw [effWeight_lowLatDemo, effWeight_highLatDemo,
    show ((62:ℝ) + 2) = 64 by norm_num, show ((0:ℝ) + 2) = 2 by norm_num,
    Real.logb_self_eq_one (by norm_num), logb_two_sixtyfour, div_one] at h
  have hL3 : 1 < Real.logb 2 3 := one_lt_logb_two_three
  have hL3ne : Real.logb 2 3 ≠ 0 := by linarith
  have hsimp : (1/2 * (1 / Real.logb 2 3)) / (1/2 * (1/(6:ℝ))) =
      6 / Real.logb 2 3 := by
    field_simp
    ring
  rw [hsimp] at h
  have hlt : 6 / Real.logb 2 3 < 6 := div_lt_self (by norm_num) hL3
  linarith [h.ge]

/-- C6 amended: the effective weight of a healthy candidate is
score * (1 / log2(latency + 2)) with the latency first clamped up to
at least 1 ms; hence for equal nonzero scores and latencies 0 ms and
62 ms the weight ratio equals log2(64) / log2(3), about 3.79, rather
than log2(64) / log2(2). -/
theorem c6_latency_weight_ratio (e1 e2 : Endpoint)
    (hs : e1.score = e2.score) (h0 : e2.score ≠ 0)
    (hl1 : e1.latencyMs = 0) (hl2 : e2.latencyMs = 62) :
    effWeight e1 / effWeight e2 = Real.logb 2 64 / Real.logb 2 3 := by
  have hL3 : 1 < Real.logb 2 3 := one_lt_logb_two_three
  have hL3ne : Real.logb 2 3 ≠ 0 := by linarith
  have hsr : ((e2.score : ℝ)) ≠ 0 := by exact_mod_cast h0
  unfold effWeight
  rw [hs, hl1, hl2,
    show clampLatency 0 = 1 by norm_num [clampLatency],
    show clampLatency 62 = 62 by norm_num [clampLatency]]
  push_cast
  rw [show (1:ℝ) + 2 = 3 by norm_num, show (62:ℝ) + 2 = 64 by norm_num,
    logb_two_sixtyfour]
  field_simp
  ring

/-- C6 amended witness: the ratio for the two concrete endpoints. -/
theorem c6_latency_weight_ratio_witness :
    effWeight lowLatDemo / effWeight highLatDemo =
      Real.logb 2 64 / Real.logb 2 3 :=
  c6_latency_weight_ratio lowLatDemo highLatDemo rfl
    (by norm_num [highLatDemo, demoEndpoint, newEndpoint]) rfl rfl

/-- C7: the probe URL appends /health to the endpoint base path without
duplicating separators (base path /rpc probes /rpc/health, /rpc/ also
probes /rpc/health, an empty base path probes /health), and a probe is
classified failed exactly when the request had a transport error or a
status other than 200. -/
theorem c7_health_probe_url :
    healthURL { scheme := "http", host := "host:1", path := "/rpc" } =
      "http://host:1/rpc/health" ∧
    healthURL { scheme := "http", host := "host:1", path := "/rpc/" } =
      "http://host:1/rpc/health" ∧
    healthURL { scheme := "http", host := "host:1", path := "" } =
      "http://host:1/health" ∧
    ∀ (te : Bool) (status : ℕ),
      probeFailed te status = true ↔ (te = true ∨ status ≠ 200) := by
  refine ⟨by decide, by decide, by decide, ?_⟩
  intro te status
  unfold probeFailed
  rcases te <;> simp

/-- C9 counterexample: a configuration with a positive interval, alpha
in (0,1], threshold at least 1 and a nonempty address list, which the
defaults pass leaves unchanged, is still rejected by Validate because
its proxy port 70000 is outside 1..65535. -/
theorem c9_construction_counterexample :
    (0 < badPortConfig.healthCheckIntervalNs ∧
     0 < badPortConfig.ewmaAlpha ∧ badPortConfig.ewmaAlpha ≤ 1 ∧
     1 ≤ badPortConfig.healthCheckFailures ∧
     badPortConfig.backendAddresses ≠ []) ∧
    badPortConfig.setDefaults = badPortConfig ∧
    badPortConfig.validate =
      Except.error "proxy_port must be between 1 and 65535" := by
  refine ⟨⟨by norm_num [badPortConfig], by norm_num [badPortConfig],
    by norm_num [badPortConfig], by norm_num [badPortConfig],
    by simp [badPortConfig]⟩, ?_, ?_⟩
  · norm_num [Config.setDefaults, badPortConfig]
  · norm_num [Config.validate, badPortConfig]

/-- C9 amended: Validate accepts a configuration exactly when the proxy
port lies in 1..65535, the health-check interval is positive, the
failure threshold is at least 1, alpha lies in (0,1] and the backend
address list is nonempty; each violated constraint, including the
proxy-port one absent from the claim, yields a construction error. -/
theorem c9_validate_iff (c : Config) :
    c.validate = Except.ok () ↔
      (1 ≤ c.proxyPort ∧ c.proxyPort ≤ 65535 ∧
       0 < c.healthCheckIntervalNs ∧
       1 ≤ c.healthCheckFailures ∧
       0 < c.ewmaAlpha ∧ c.ewmaAlpha ≤ 1 ∧
       c.backendAddresses ≠ []) := by
  unfold Config.validate
  split_ifs with h1 h2 h3 h4 h5
  · exact iff_of_false (by simp)
      (by rintro ⟨a1, a2, _⟩; rcases h1 with h | h <;> omega)
  · exact iff_of_false (by simp) (by rintro ⟨_, _, a3, _⟩; omega)
  · exact iff_of_false (by simp) (by rintro ⟨_, _, _, a4, _⟩; omega)
  · exact iff_of_false (by simp)
      (by rintro ⟨_, _, _, _, a5, a6, _⟩; rcases h4 with h | h <;> linarith)
  · exact iff_of_false (by simp)
      (by rintro ⟨_, _, _, _, _, _, a7⟩; exact a7 (List.length_eq_zero.mp h5))
  · push_neg at h1 h4
    exact iff_of_true rfl
      ⟨h1.1, h1.2, by omega, by omega, h4.1, h4.2,
       fun hh => h5 (by simp [hh])⟩
